import Mathlib

/-!
Shallow embedding of the camera/view controller (`Source/ViewManager.cpp`)
and the texture/material registry (`Source/SceneManager.cpp`) of the
CS330 graphics repository, together with proofs of the specified
behavioural properties.

Modelling conventions:
* C++ `float` values are modelled as real numbers (`ℝ`); the arithmetic
  of the handlers (addition, multiplication by the sensitivity constant,
  clamping) is exact in this model.
* The free-standing global variables of `ViewManager.cpp`'s anonymous
  namespace become the fields of one `CameraState` record; each GLFW
  callback becomes a state-transition function on that record.
* `std::cout` log lines emitted by the projection-mode toggle become an
  explicit list of `LogMsg` values returned next to the new state.
* OpenGL / GLFW calls that only talk to the graphics driver (texture
  binding, uniform upload) are modelled by recording the arguments the
  code passes to them.
-/

namespace CS330

/-- 3D vector with real components, modelling `glm::vec3`. -/
@[ext]
structure Vec3 where
  x : ℝ
  y : ℝ
  z : ℝ

namespace Vec3

instance : Add Vec3 := ⟨fun a b => ⟨a.x + b.x, a.y + b.y, a.z + b.z⟩⟩
instance : Sub Vec3 := ⟨fun a b => ⟨a.x - b.x, a.y - b.y, a.z - b.z⟩⟩
instance : Neg Vec3 := ⟨fun a => ⟨-a.x, -a.y, -a.z⟩⟩
instance : SMul ℝ Vec3 := ⟨fun c a => ⟨c * a.x, c * a.y, c * a.z⟩⟩

@[simp] theorem add_x (a b : Vec3) : (a + b).x = a.x + b.x := rfl
@[simp] theorem add_y (a b : Vec3) : (a + b).y = a.y + b.y := rfl
@[simp] theorem add_z (a b : Vec3) : (a + b).z = a.z + b.z := rfl
@[simp] theorem sub_x (a b : Vec3) : (a - b).x = a.x - b.x := rfl
@[simp] theorem sub_y (a b : Vec3) : (a - b).y = a.y - b.y := rfl
@[simp] theorem sub_z (a b : Vec3) : (a - b).z = a.z - b.z := rfl
@[simp] theorem smul_x (c : ℝ) (a : Vec3) : (c • a).x = c * a.x := rfl
@[simp] theorem smul_y (c : ℝ) (a : Vec3) : (c • a).y = c * a.y := rfl
@[simp] theorem smul_z (c : ℝ) (a : Vec3) : (c • a).z = c * a.z := rfl

/-- `glm::cross`. -/
def cross (a b : Vec3) : Vec3 :=
  ⟨a.y * b.z - a.z * b.y, a.z * b.x - a.x * b.z, a.x * b.y - a.y * b.x⟩

/-- Euclidean length of a vector, `glm::length`. -/
noncomputable def length (v : Vec3) : ℝ :=
  Real.sqrt (v.x * v.x + v.y * v.y + v.z * v.z)

/-- `glm::normalize`: scale the vector by the reciprocal of its length. -/
noncomputable def normalize (v : Vec3) : Vec3 :=
  (1 / v.length) • v

theorem normalize_of_length_one {v : Vec3} (h : v.length = 1) :
    v.normalize = v := by
  simp [normalize, h]
  ext <;> simp

end Vec3

/-- `glm::radians`: degrees to radians. -/
noncomputable def radians (deg : ℝ) : ℝ := deg * Real.pi / 180

/-- The camera direction recomputed from yaw/pitch at the end of
`Mouse_Position_Callback` (ViewManager.cpp lines 150-155):
`normalize (cos yaw * cos pitch, sin pitch, sin yaw * cos pitch)`,
angles in degrees converted with `glm::radians`. -/
noncomputable def cameraDirection (yaw pitch : ℝ) : Vec3 :=
  Vec3.normalize
    ⟨Real.cos (radians yaw) * Real.cos (radians pitch),
     Real.sin (radians pitch),
     Real.sin (radians yaw) * Real.cos (radians pitch)⟩

/-- The global camera / input state of `ViewManager.cpp`'s anonymous
namespace (lines 18-53), one field per global variable, plus the
window-close flag set through `glfwSetWindowShouldClose`. -/
structure CameraState where
  cameraPos : Vec3
  cameraFront : Vec3
  cameraUp : Vec3
  lastX : ℝ
  lastY : ℝ
  firstMouse : Bool
  yaw : ℝ
  pitch : ℝ
  fov : ℝ
  deltaTime : ℝ
  lastFrame : ℝ
  movementSpeed : ℝ
  orthographicProjection : Bool
  pKeyPressed : Bool
  oKeyPressed : Bool
  windowShouldClose : Bool

/-- Window width constant (ViewManager.cpp line 22). -/
def WINDOW_WIDTH : ℝ := 1000

/-- Window height constant (ViewManager.cpp line 23). -/
def WINDOW_HEIGHT : ℝ := 800

/-- Initial values of the globals (ViewManager.cpp lines 28-52). -/
noncomputable def initialCameraState : CameraState where
  cameraPos := ⟨0, 3, 12⟩
  cameraFront := ⟨0, -0.2, -1⟩
  cameraUp := ⟨0, 1, 0⟩
  lastX := WINDOW_WIDTH / 2
  lastY := WINDOW_HEIGHT / 2
  firstMouse := true
  yaw := -90
  pitch := 0
  fov := 45
  deltaTime := 0
  lastFrame := 0
  movementSpeed := 2.5
  orthographicProjection := false
  pKeyPressed := false
  oKeyPressed := false
  windowShouldClose := false

/-- The pitch constraint of `Mouse_Position_Callback`
(ViewManager.cpp lines 144-148): two sequential ifs. -/
noncomputable def constrainPitch (p : ℝ) : ℝ :=
  let p1 := if p > 89 then 89 else p
  if p1 < -89 then -89 else p1

/-- `ViewManager::Mouse_Position_Callback` (ViewManager.cpp lines
119-156).  On the first event the `firstMouse` branch only seeds
`lastX`/`lastY`; the function does not return there but falls through
to the offset computation (yielding zero offsets) and to the
recomputation of `cameraFront`. -/
noncomputable def Mouse_Position_Callback
    (s : CameraState) (xpos ypos : ℝ) : CameraState :=
  let s1 := if s.firstMouse then
      { s with lastX := xpos, lastY := ypos, firstMouse := false }
    else s
  let xoffset := (xpos - s1.lastX) * 0.1
  let yoffset := (s1.lastY - ypos) * 0.1
  let yaw1 := s1.yaw + xoffset
  let pitch1 := constrainPitch (s1.pitch + yoffset)
  { s1 with
      lastX := xpos
      lastY := ypos
      yaw := yaw1
      pitch := pitch1
      cameraFront := cameraDirection yaw1 pitch1 }

/-- The movement-speed clamp of `Mouse_Scroll_Callback`
(ViewManager.cpp lines 171-174): two sequential ifs. -/
noncomputable def constrainSpeed (v : ℝ) : ℝ :=
  let sp1 := if v < 0.1 then 0.1 else v
  if sp1 > 10 then 10 else sp1

/-- `ViewManager::Mouse_Scroll_Callback` (ViewManager.cpp lines
165-177): add `yoffset * 0.5` to the movement speed and clamp it to
`[0.1, 10.0]`. -/
noncomputable def Mouse_Scroll_Callback
    (s : CameraState) (xoffset yoffset : ℝ) : CameraState :=
  { s with movementSpeed := constrainSpeed (s.movementSpeed + yoffset * 0.5) }

/-- Run a list of cursor-moved events through the mouse callback. -/
noncomputable def runMouseEvents
    (s : CameraState) (events : List (ℝ × ℝ)) : CameraState :=
  events.foldl (fun st e => Mouse_Position_Callback st e.1 e.2) s

/-- Run a list of scroll events through the scroll callback. -/
noncomputable def runScrollEvents
    (s : CameraState) (events : List (ℝ × ℝ)) : CameraState :=
  events.foldl (fun st e => Mouse_Scroll_Callback st e.1 e.2) s

/-- The polled key states consumed by `ProcessKeyboardEvents` through
`glfwGetKey`, one Boolean per tracked key. -/
structure KeyState where
  escape : Bool
  w : Bool
  s : Bool
  a : Bool
  d : Bool
  q : Bool
  e : Bool
  p : Bool
  o : Bool
  deriving DecidableEq, Repr

/-- The `std::cout` lines emitted by the projection-mode toggle in
`ProcessKeyboardEvents` (ViewManager.cpp lines 219 and 234). -/
inductive LogMsg where
  | switchedToPerspective
  | switchedToOrthographic
  deriving DecidableEq, Repr

/-- Real-valued indicator of a key state, used to state the combined
displacement of one keyboard tick. -/
def b2r (b : Bool) : ℝ := if b then 1 else 0

/-- The escape-key section of `ProcessKeyboardEvents` (ViewManager.cpp
lines 188-191): request window close while escape is pressed. -/
noncomputable def applyEscape (st : CameraState) (keys : KeyState) : CameraState :=
  if keys.escape then { st with windowShouldClose := true } else st

/-- The movement section of `ProcessKeyboardEvents` (ViewManager.cpp
lines 194-210): W/S/A/D/Q/E each add `movementSpeed * deltaTime` times
the respective direction to the camera position. -/
noncomputable def applyMovement (st : CameraState) (keys : KeyState) : CameraState :=
  let cameraSpeed := st.movementSpeed * st.deltaTime
  let pos0 := st.cameraPos
  let pos1 := if keys.w then pos0 + cameraSpeed • st.cameraFront else pos0
  let pos2 := if keys.s then pos1 - cameraSpeed • st.cameraFront else pos1
  let pos3 := if keys.a then
      pos2 - cameraSpeed • Vec3.normalize (Vec3.cross st.cameraFront st.cameraUp)
    else pos2
  let pos4 := if keys.d then
      pos3 + cameraSpeed • Vec3.normalize (Vec3.cross st.cameraFront st.cameraUp)
    else pos3
  let pos5 := if keys.q then pos4 + cameraSpeed • st.cameraUp else pos4
  let pos6 := if keys.e then pos5 - cameraSpeed • st.cameraUp else pos5
  { st with cameraPos := pos6 }

/-- The P-key section of `ProcessKeyboardEvents` (ViewManager.cpp lines
213-225): switch to perspective mode on the released-to-pressed edge of
the P key, tracked by `pKeyPressed`; release resets the flag. -/
noncomputable def pKeyStep (st : CameraState) (keys : KeyState) :
    CameraState × List LogMsg :=
  if keys.p then
    if st.pKeyPressed then (st, [])
    else ({ st with orthographicProjection := false, pKeyPressed := true },
          [LogMsg.switchedToPerspective])
  else ({ st with pKeyPressed := false }, [])

/-- The O-key section of `ProcessKeyboardEvents` (ViewManager.cpp lines
228-240): switch to orthographic mode on the released-to-pressed edge
of the O key, tracked by `oKeyPressed`; release resets the flag. -/
noncomputable def oKeyStep (st : CameraState) (keys : KeyState) :
    CameraState × List LogMsg :=
  if keys.o then
    if st.oKeyPressed then (st, [])
    else ({ st with orthographicProjection := true, oKeyPressed := true },
          [LogMsg.switchedToOrthographic])
  else ({ st with oKeyPressed := false }, [])

/-- `ViewManager::ProcessKeyboardEvents` (ViewManager.cpp lines
185-241): escape requests window close, W/S/A/D/Q/E move the camera by
`movementSpeed * deltaTime` along the respective direction, and the
P/O keys switch the projection mode edge-triggered through the
`pKeyPressed` / `oKeyPressed` flags.  Returns the new state and the
log lines printed during the call, in the order the source runs the
four sections. -/
noncomputable def ProcessKeyboardEvents
    (st : CameraState) (keys : KeyState) : CameraState × List LogMsg :=
  let st1 := applyMovement (applyEscape st keys) keys
  let p := pKeyStep st1 keys
  let o := oKeyStep p.1 keys
  (o.1, p.2 ++ o.2)

/-- One per-frame tick with a given elapsed time: `PrepareSceneView`
(ViewManager.cpp lines 256-261) stores the elapsed time in `deltaTime`
and then runs `ProcessKeyboardEvents`. -/
noncomputable def tick (st : CameraState) (elapsedSeconds : ℝ)
    (keys : KeyState) : CameraState × List LogMsg :=
  ProcessKeyboardEvents { st with deltaTime := elapsedSeconds } keys

/-- Run a list of per-frame ticks, collecting all emitted log lines. -/
noncomputable def runTicks (st : CameraState)
    (ticks : List (ℝ × KeyState)) : CameraState × List LogMsg :=
  match ticks with
  | [] => (st, [])
  | t :: rest =>
    let first := tick st t.1 t.2
    let later := runTicks first.1 rest
    (later.1, first.2 ++ later.2)

/-- The projection matrix construction call issued by
`PrepareSceneView`, with the arguments the code passes: either
`glm::ortho(left, right, bottom, top, zNear, zFar)` or
`glm::perspective(radians(fovDegrees), aspect, zNear, zFar)` (the
perspective field of view is recorded in degrees, before the
`glm::radians` conversion the source applies at the call site). -/
inductive ProjectionCall where
  | ortho (left right bottom top zNear zFar : ℝ)
  | perspective (fovDegrees aspect zNear zFar : ℝ)

/-- The projection-selection branch of `ViewManager::PrepareSceneView`
(ViewManager.cpp lines 266-285). -/
noncomputable def prepareSceneViewProjection (st : CameraState) : ProjectionCall :=
  if st.orthographicProjection then
    let orthoSize : ℝ := 15
    let aspectRatio := WINDOW_WIDTH / WINDOW_HEIGHT
    ProjectionCall.ortho
      (-orthoSize * aspectRatio / 2) (orthoSize * aspectRatio / 2)
      (-orthoSize / 2) (orthoSize / 2) 0.1 100
  else
    ProjectionCall.perspective st.fov (WINDOW_WIDTH / WINDOW_HEIGHT) 0.1 100

/-- The top clipping-plane bound of an orthographic projection call
(its half-height); `none` for a perspective call. -/
def ProjectionCall.orthoTop : ProjectionCall → Option ℝ
  | .ortho _ _ _ t _ _ => some t
  | .perspective _ _ _ _ => none

/-- `ViewManager::PrepareSceneView` (ViewManager.cpp lines 250-294):
update the frame clock, process keyboard input, and build the
view/projection pair from the resulting state.  The view matrix is
recorded as its `glm::lookAt(eye, center, up)` arguments. -/
noncomputable def PrepareSceneView (st : CameraState) (currentFrame : ℝ)
    (keys : KeyState) :
    CameraState × List LogMsg × (Vec3 × Vec3 × Vec3) × ProjectionCall :=
  let st0 := { st with
      deltaTime := currentFrame - st.lastFrame, lastFrame := currentFrame }
  let kb := ProcessKeyboardEvents st0 keys
  let st1 := kb.1
  (st1, kb.2,
   (st1.cameraPos, st1.cameraPos + st1.cameraFront, st1.cameraUp),
   prepareSceneViewProjection st1)

/-! ### SceneManager: texture registry, material table, lookups -/

/-- One texture-slot entry of `m_textureIDs` (OpenGL texture object id
plus the tag string), with the fields `SceneManager.cpp` accesses
(`.ID`, `.tag`).  Modelled from the spec: the `TEXTURE_INFO` record
itself is declared in `SceneManager.h`, which is not part of the
sources. -/
structure TEXTURE_INFO where
  ID : Int
  tag : String
  deriving DecidableEq, Repr

/-- One material record, with the fields `SceneManager.cpp` accesses
in `FindMaterial`.  Color triples are kept as rational components.
Modelled from the spec: `OBJECT_MATERIAL` itself is declared in
`SceneManager.h`, which is not part of the sources. -/
structure OBJECT_MATERIAL where
  ambientColor : ℚ × ℚ × ℚ
  ambientStrength : ℚ
  diffuseColor : ℚ × ℚ × ℚ
  specularColor : ℚ × ℚ × ℚ
  shininess : ℚ
  tag : String
  deriving DecidableEq, Repr

/-- Modelled from the spec: the capacity of the fixed `m_textureIDs`
array (declared in the missing `SceneManager.h`); the spec calls the
texture registry a "fixed-capacity array" and the `BindGLTextures`
comment documents "up to 16 slots". -/
def MAX_TEXTURE_SLOTS : Nat := 16

/-- The texture-registry / material-table state of a `SceneManager`
object: the fixed texture array, the count of loaded textures, and the
material list. -/
structure SceneState where
  m_textureIDs : List TEXTURE_INFO
  m_loadedTextures : Nat
  m_objectMaterials : List OBJECT_MATERIAL
  deriving DecidableEq, Repr

/-- A `SceneManager` as constructed (SceneManager.cpp lines 37-42):
no texture loaded yet, the fixed array default-initialised, no
materials defined yet. -/
def initialSceneState : SceneState where
  m_textureIDs := List.replicate MAX_TEXTURE_SLOTS ⟨0, ""⟩
  m_loadedTextures := 0
  m_objectMaterials := []

/-- A C-array element write `arr[i] = v` with its bound made explicit:
`none` models the out-of-bounds write (undefined behavior in the
source language). -/
def setChecked (l : List TEXTURE_INFO) (i : Nat) (v : TEXTURE_INFO) :
    Option (List TEXTURE_INFO) :=
  if i < l.length then some (l.set i v) else none

/-- The outcome of `stbi_load` on the image file: `none` when the file
cannot be decoded, otherwise the decoded width/height/channel counts. -/
structure ImageData where
  width : Int
  height : Int
  colorChannels : Int
  deriving DecidableEq, Repr

/-- `SceneManager::CreateGLTexture` (SceneManager.cpp lines 64-128),
as a function of the decode outcome for the named file and of the
texture object id OpenGL hands back.  Decode failure and an
unsupported channel count both return `false` and leave the registry
untouched; a successful load writes the new entry at index
`m_loadedTextures` of the fixed array and increments the count.  The
outer `none` marks the out-of-bounds array write that happens when
`m_loadedTextures` is already at the array's length. -/
def CreateGLTexture (s : SceneState) (decoded : Option ImageData)
    (textureID : Int) (tag : String) : Option (Bool × SceneState) :=
  match decoded with
  | none => some (false, s)
  | some img =>
    if img.colorChannels = 3 ∨ img.colorChannels = 4 then
      match setChecked s.m_textureIDs s.m_loadedTextures ⟨textureID, tag⟩ with
      | none => none
      | some arr =>
        some (true, { s with m_textureIDs := arr,
                             m_loadedTextures := s.m_loadedTextures + 1 })
    else
      some (false, s)

/-- Iterate `CreateGLTexture` n times with the same successfully
decoded 3-channel image, propagating the out-of-bounds marker. -/
def loadSameTexture : Nat → SceneState → Option SceneState
  | 0, s => some s
  | n + 1, s =>
    match CreateGLTexture s (some ⟨64, 64, 3⟩) 1 "bricks" with
    | some (true, s1) => loadSameTexture n s1
    | some (false, _) => none
    | none => none

/-- `SceneManager::BindGLTextures` (SceneManager.cpp lines 136-144):
the `(texture unit, texture object id)` pairs bound, one per loaded
texture, unit `i` getting `m_textureIDs[i].ID`. -/
def BindGLTextures (s : SceneState) : List (Nat × Int) :=
  (List.range s.m_loadedTextures).map
    (fun i => (i, (s.m_textureIDs.getD i ⟨0, ""⟩).ID))

/-- The scan loop of `FindTextureID`: walk the entries in order and
return the first matching entry's `ID`, `-1` when none matches. -/
def findTextureIDLoop (entries : List TEXTURE_INFO) (tag : String) : Int :=
  match entries with
  | [] => -1
  | e :: rest => if e.tag = tag then e.ID else findTextureIDLoop rest tag

/-- `SceneManager::FindTextureID` (SceneManager.cpp lines 166-184):
linear scan of the first `m_loadedTextures` entries, result `-1` when
the tag is absent. -/
def FindTextureID (s : SceneState) (tag : String) : Int :=
  findTextureIDLoop (s.m_textureIDs.take s.m_loadedTextures) tag

/-- The scan loop of `FindTextureSlot`: walk the entries in order and
return the index of the first matching entry, `-1` when none
matches. -/
def findTextureSlotLoop (entries : List TEXTURE_INFO) (tag : String)
    (index : Int) : Int :=
  match entries with
  | [] => -1
  | e :: rest =>
    if e.tag = tag then index else findTextureSlotLoop rest tag (index + 1)

/-- `SceneManager::FindTextureSlot` (SceneManager.cpp lines 192-210):
linear scan of the first `m_loadedTextures` entries, result the
matching index or `-1` when the tag is absent. -/
def FindTextureSlot (s : SceneState) (tag : String) : Int :=
  findTextureSlotLoop (s.m_textureIDs.take s.m_loadedTextures) tag 0

/-- The scan loop of `FindMaterial`: first matching material record,
`none` when the tag is absent (the source fills an out-parameter and
returns `false` in that case; `Option` carries both at once). -/
def findMaterialLoop (mats : List OBJECT_MATERIAL) (tag : String) :
    Option OBJECT_MATERIAL :=
  match mats with
  | [] => none
  | m :: rest => if m.tag = tag then some m else findMaterialLoop rest tag

/-- `SceneManager::FindMaterial` (SceneManager.cpp lines 218-245). -/
def FindMaterial (s : SceneState) (tag : String) : Option OBJECT_MATERIAL :=
  findMaterialLoop s.m_objectMaterials tag

/-- A shader-uniform upload issued by the draw-preparation helpers. -/
inductive ShaderCall where
  | setIntValue (name : String) (value : Int)
  | setSampler2DValue (name : String) (value : Int)
  deriving DecidableEq, Repr

/-- `SceneManager::SetShaderTexture` (SceneManager.cpp lines 318-329),
with the shader manager present: enable texturing, look the tag up
with `FindTextureSlot`, and pass the result (found slot or `-1`)
unchecked into the `objectTexture` sampler uniform. -/
def SetShaderTexture (s : SceneState) (textureTag : String) : List ShaderCall :=
  [ShaderCall.setIntValue "bUseTexture" 1,
   ShaderCall.setSampler2DValue "objectTexture" (FindTextureSlot s textureTag)]

/-! ### Helper lemmas -/

theorem constrainPitch_mem (p : ℝ) :
    -89 ≤ constrainPitch p ∧ constrainPitch p ≤ 89 := by
  simp only [constrainPitch]
  split_ifs <;> constructor <;> linarith

theorem Mouse_Position_Callback_pitch (s : CameraState) (x y : ℝ) :
    (Mouse_Position_Callback s x y).pitch =
      constrainPitch (s.pitch + ((if s.firstMouse then y else s.lastY) - y) * 0.1) := by
  simp only [Mouse_Position_Callback]
  by_cases h : s.firstMouse <;> simp [h]

theorem Mouse_Position_Callback_pitch_mem (s : CameraState) (x y : ℝ) :
    -89 ≤ (Mouse_Position_Callback s x y).pitch ∧
      (Mouse_Position_Callback s x y).pitch ≤ 89 := by
  rw [Mouse_Position_Callback_pitch]
  exact constrainPitch_mem _

theorem runMouseEvents_cons (s : CameraState) (e : ℝ × ℝ) (rest : List (ℝ × ℝ)) :
    runMouseEvents s (e :: rest) =
      runMouseEvents (Mouse_Position_Callback s e.1 e.2) rest := rfl

theorem runMouseEvents_pitch_mem (events : List (ℝ × ℝ)) (s : CameraState)
    (h : -89 ≤ s.pitch ∧ s.pitch ≤ 89) :
    -89 ≤ (runMouseEvents s events).pitch ∧ (runMouseEvents s events).pitch ≤ 89 := by
  induction events generalizing s with
  | nil => exact h
  | cons e rest ih =>
    rw [runMouseEvents_cons]
    exact ih _ (Mouse_Position_Callback_pitch_mem s e.1 e.2)

/-! ### C1 -/

/-- C1: starting from the initial state (pitch = 0), for every sequence
of cursor-moved events processed by `Mouse_Position_Callback`, the
resulting pitch stays within [-89, 89] degrees inclusive after every
event (every prefix of the sequence is itself a sequence, so the bound
after each event is the instance of this statement at that prefix). -/
theorem C1_pitch_invariant (events : List (ℝ × ℝ)) :
    -89 ≤ (runMouseEvents initialCameraState events).pitch ∧
      (runMouseEvents initialCameraState events).pitch ≤ 89 := by
  refine runMouseEvents_pitch_mem events initialCameraState ?_
  constructor <;> norm_num [initialCameraState]

/-! ### C5 -/

theorem constrainSpeed_mem (v : ℝ) :
    1/10 ≤ constrainSpeed v ∧ constrainSpeed v ≤ 10 := by
  simp only [constrainSpeed]
  split_ifs <;> constructor <;> linarith

theorem constrainSpeed_eq_clamp (v : ℝ) :
    constrainSpeed v = max (1/10) (min 10 v) := by
  simp only [constrainSpeed, max_def, min_def]
  split_ifs <;> linarith

theorem runScrollEvents_cons (s : CameraState) (e : ℝ × ℝ) (rest : List (ℝ × ℝ)) :
    runScrollEvents s (e :: rest) =
      runScrollEvents (Mouse_Scroll_Callback s e.1 e.2) rest := rfl

theorem runScrollEvents_speed_mem (events : List (ℝ × ℝ)) (s : CameraState)
    (h : 1/10 ≤ s.movementSpeed ∧ s.movementSpeed ≤ 10) :
    1/10 ≤ (runScrollEvents s events).movementSpeed ∧
      (runScrollEvents s events).movementSpeed ≤ 10 := by
  induction events generalizing s with
  | nil => exact h
  | cons e rest ih =>
    rw [runScrollEvents_cons]
    exact ih _ (constrainSpeed_mem _)

/-- C5: every scroll event sets `movementSpeed` to the previous value
plus `offsetY * 0.5` clamped to [0.1, 10.0], and changes no other
camera state (in particular `fov` is unchanged); and for any sequence
of scroll events starting from the initial movement speed 2.5 the
speed stays within [0.1, 10.0] inclusive. -/
theorem C5_scroll_speed : (∀ (s : CameraState) (xo yo : ℝ),
      (Mouse_Scroll_Callback s xo yo).movementSpeed =
        max (1/10) (min 10 (s.movementSpeed + yo * (1/2))) ∧
      (Mouse_Scroll_Callback s xo yo).cameraPos = s.cameraPos ∧
      (Mouse_Scroll_Callback s xo yo).cameraFront = s.cameraFront ∧
      (Mouse_Scroll_Callback s xo yo).cameraUp = s.cameraUp ∧
      (Mouse_Scroll_Callback s xo yo).lastX = s.lastX ∧
      (Mouse_Scroll_Callback s xo yo).lastY = s.lastY ∧
      (Mouse_Scroll_Callback s xo yo).firstMouse = s.firstMouse ∧
      (Mouse_Scroll_Callback s xo yo).yaw = s.yaw ∧
      (Mouse_Scroll_Callback s xo yo).pitch = s.pitch ∧
      (Mouse_Scroll_Callback s xo yo).fov = s.fov ∧
      (Mouse_Scroll_Callback s xo yo).deltaTime = s.deltaTime ∧
      (Mouse_Scroll_Callback s xo yo).lastFrame = s.lastFrame ∧
      (Mouse_Scroll_Callback s xo yo).orthographicProjection =
        s.orthographicProjection ∧
      (Mouse_Scroll_Callback s xo yo).pKeyPressed = s.pKeyPressed ∧
      (Mouse_Scroll_Callback s xo yo).oKeyPressed = s.oKeyPressed ∧
      (Mouse_Scroll_Callback s xo yo).windowShouldClose = s.windowShouldClose) ∧
    ∀ events : List (ℝ × ℝ),
      1/10 ≤ (runScrollEvents initialCameraState events).movementSpeed ∧
        (runScrollEvents initialCameraState events).movementSpeed ≤ 10 := by
  constructor
  · intro s xo yo
    refine ⟨?_, rfl, rfl, rfl, rfl, rfl, rfl, rfl, rfl, rfl, rfl, rfl, rfl,
      rfl, rfl, rfl⟩
    show constrainSpeed (s.movementSpeed + yo * 0.5) = _
    rw [constrainSpeed_eq_clamp]
    norm_num
  · intro events
    refine runScrollEvents_speed_mem events initialCameraState ?_
    constructor <;> norm_num [initialCameraState]

/-! ### C2 -/

theorem constrainPitch_eq_self {p : ℝ} (h1 : -89 ≤ p) (h2 : p ≤ 89) :
    constrainPitch p = p := by
  simp only [constrainPitch]
  split_ifs <;> linarith

theorem mouse_first_event_fields (s : CameraState) (x y : ℝ)
    (hf : s.firstMouse = true) (h1 : -89 ≤ s.pitch) (h2 : s.pitch ≤ 89) :
    (Mouse_Position_Callback s x y).lastX = x ∧
    (Mouse_Position_Callback s x y).lastY = y ∧
    (Mouse_Position_Callback s x y).firstMouse = false ∧
    (Mouse_Position_Callback s x y).yaw = s.yaw ∧
    (Mouse_Position_Callback s x y).pitch = s.pitch ∧
    (Mouse_Position_Callback s x y).cameraFront = cameraDirection s.yaw s.pitch := by
  simp only [Mouse_Position_Callback, hf, if_true]
  refine ⟨trivial, trivial, trivial, by ring, ?_, ?_⟩
  · show constrainPitch (s.pitch + (y - y) * 0.1) = s.pitch
    rw [show s.pitch + (y - y) * 0.1 = s.pitch by ring]
    exact constrainPitch_eq_self h1 h2
  · show cameraDirection (s.yaw + (x - x) * 0.1)
        (constrainPitch (s.pitch + (y - y) * 0.1)) = _
    rw [show s.yaw + (x - x) * 0.1 = s.yaw by ring,
        show s.pitch + (y - y) * 0.1 = s.pitch by ring,
        constrainPitch_eq_self h1 h2]

theorem cameraDirection_neg90_zero : cameraDirection (-90) 0 = ⟨0, 0, -1⟩ := by
  have hr : radians (-90) = -(Real.pi / 2) := by
    simp only [radians]; ring
  have hr0 : radians 0 = 0 := by
    simp only [radians]; ring
  have hv : cameraDirection (-90) 0 = Vec3.normalize ⟨0, 0, -1⟩ := by
    simp only [cameraDirection, hr, hr0]
    norm_num [Real.cos_pi_div_two, Real.sin_pi_div_two]
  rw [hv]
  refine Vec3.normalize_of_length_one ?_
  simp only [Vec3.length]
  norm_num

/-- C2 (counterexample): the very first cursor-moved event from the
initial state does change the camera front vector — the handler does
not return after seeding the baseline, it falls through and recomputes
`cameraFront` from (yaw, pitch), snapping the unnormalized seed
(0, -0.2, -1) to (0, 0, -1). -/
theorem C2_counterexample :
    (Mouse_Position_Callback initialCameraState 123 456).cameraFront ≠
      initialCameraState.cameraFront := by
  have hfields := mouse_first_event_fields initialCameraState 123 456 rfl
    (by norm_num [initialCameraState]) (by norm_num [initialCameraState])
  have hfront : (Mouse_Position_Callback initialCameraState 123 456).cameraFront =
      cameraDirection (-90) 0 := by
    rw [hfields.2.2.2.2.2]
    norm_num [initialCameraState]
  rw [hfront, cameraDirection_neg90_zero]
  intro h
  have hy := congrArg Vec3.y h
  simp only [initialCameraState] at hy
  norm_num at hy

/-- C2 (amended): for every coordinate pair (x, y), the very first
cursor-moved event (firstMouse = true, pitch within its invariant
bounds) records (x, y) as the baseline lastX/lastY and leaves yaw and
pitch unchanged, but it does not leave the front vector untouched: the
handler falls through and recomputes `cameraFront` from the current
(yaw, pitch), replacing whatever front vector was stored before. -/
theorem C2_first_event_baseline (s : CameraState) (x y : ℝ)
    (hf : s.firstMouse = true) (h1 : -89 ≤ s.pitch) (h2 : s.pitch ≤ 89) :
    (Mouse_Position_Callback s x y).lastX = x ∧
    (Mouse_Position_Callback s x y).lastY = y ∧
    (Mouse_Position_Callback s x y).firstMouse = false ∧
    (Mouse_Position_Callback s x y).yaw = s.yaw ∧
    (Mouse_Position_Callback s x y).pitch = s.pitch ∧
    (Mouse_Position_Callback s x y).cameraFront = cameraDirection s.yaw s.pitch :=
  mouse_first_event_fields s x y hf h1 h2

/-- Witness for `C2_first_event_baseline` at the initial state and the
cursor position (123, 456). -/
theorem C2_first_event_baseline_witness :
    (Mouse_Position_Callback initialCameraState 123 456).lastX = 123 ∧
    (Mouse_Position_Callback initialCameraState 123 456).lastY = 456 ∧
    (Mouse_Position_Callback initialCameraState 123 456).firstMouse = false ∧
    (Mouse_Position_Callback initialCameraState 123 456).yaw =
      initialCameraState.yaw ∧
    (Mouse_Position_Callback initialCameraState 123 456).pitch =
      initialCameraState.pitch ∧
    (Mouse_Position_Callback initialCameraState 123 456).cameraFront =
      cameraDirection initialCameraState.yaw initialCameraState.pitch :=
  C2_first_event_baseline initialCameraState 123 456 rfl
    (by norm_num [initialCameraState]) (by norm_num [initialCameraState])

/-! ### C4 -/

theorem constrainPitch_eq_clamp (p : ℝ) :
    constrainPitch p = max (-89) (min 89 p) := by
  simp only [constrainPitch, max_def, min_def]
  split_ifs <;> linarith

theorem mouse_nonfirst_fields (s : CameraState) (x y : ℝ)
    (hf : s.firstMouse = false) :
    (Mouse_Position_Callback s x y).lastX = x ∧
    (Mouse_Position_Callback s x y).lastY = y ∧
    (Mouse_Position_Callback s x y).firstMouse = false ∧
    (Mouse_Position_Callback s x y).yaw = s.yaw + (x - s.lastX) * 0.1 ∧
    (Mouse_Position_Callback s x y).pitch =
      constrainPitch (s.pitch + (s.lastY - y) * 0.1) ∧
    (Mouse_Position_Callback s x y).cameraFront =
      cameraDirection (s.yaw + (x - s.lastX) * 0.1)
        (constrainPitch (s.pitch + (s.lastY - y) * 0.1)) := by
  simp [Mouse_Position_Callback, hf]

/-- C4: for every non-first cursor-moved event, the handler computes
`offsetX = x - lastX` and `offsetY = lastY - y`, scales both by the
sensitivity 0.1, adds them to yaw and pitch, clamps pitch to
[-89, 89], recomputes the front vector from the new (yaw, pitch) by the
spherical-to-Cartesian conversion, and unconditionally stores (x, y) in
lastX/lastY; in particular from yaw = -90 with an established baseline,
an event with raw x-offset 100 and zero y-offset yields yaw = -80
(an increase of exactly 10 degrees) and the front recomputed from the
new angles. -/
theorem C4_mouse_move :
    (∀ (s : CameraState) (x y : ℝ), s.firstMouse = false →
      (Mouse_Position_Callback s x y).lastX = x ∧
      (Mouse_Position_Callback s x y).lastY = y ∧
      (Mouse_Position_Callback s x y).yaw = s.yaw + (x - s.lastX) * 0.1 ∧
      (Mouse_Position_Callback s x y).pitch =
        max (-89) (min 89 (s.pitch + (s.lastY - y) * 0.1)) ∧
      (Mouse_Position_Callback s x y).cameraFront =
        cameraDirection ((Mouse_Position_Callback s x y).yaw)
          ((Mouse_Position_Callback s x y).pitch)) ∧
    ∀ s : CameraState, s.firstMouse = false → s.yaw = -90 →
      (Mouse_Position_Callback s (s.lastX + 100) s.lastY).yaw = -80 ∧
      (Mouse_Position_Callback s (s.lastX + 100) s.lastY).cameraFront =
        cameraDirection (-80)
          ((Mouse_Position_Callback s (s.lastX + 100) s.lastY).pitch) := by
  have hgen : ∀ (s : CameraState) (x y : ℝ), s.firstMouse = false →
      (Mouse_Position_Callback s x y).lastX = x ∧
      (Mouse_Position_Callback s x y).lastY = y ∧
      (Mouse_Position_Callback s x y).yaw = s.yaw + (x - s.lastX) * 0.1 ∧
      (Mouse_Position_Callback s x y).pitch =
        max (-89) (min 89 (s.pitch + (s.lastY - y) * 0.1)) ∧
      (Mouse_Position_Callback s x y).cameraFront =
        cameraDirection ((Mouse_Position_Callback s x y).yaw)
          ((Mouse_Position_Callback s x y).pitch) := by
    intro s x y hf
    obtain ⟨hx, hy, _, hyaw, hpitch, hfront⟩ := mouse_nonfirst_fields s x y hf
    refine ⟨hx, hy, hyaw, ?_, ?_⟩
    · rw [hpitch, constrainPitch_eq_clamp]
    · rw [hfront, hyaw, hpitch]
  refine ⟨hgen, ?_⟩
  intro s hf hyaw90
  obtain ⟨_, _, hyaw, hpitch, hfront⟩ := hgen s (s.lastX + 100) s.lastY hf
  have hyaw' : (Mouse_Position_Callback s (s.lastX + 100) s.lastY).yaw = -80 := by
    rw [hyaw, hyaw90]; ring
  refine ⟨hyaw', ?_⟩
  rw [hfront, hyaw']

/-- Witness for `C4_mouse_move` at a concrete post-baseline state. -/
theorem C4_mouse_move_witness :
    ({ initialCameraState with firstMouse := false } : CameraState).firstMouse
      = false ∧
    ({ initialCameraState with firstMouse := false } : CameraState).yaw = -90 ∧
    ((Mouse_Position_Callback { initialCameraState with firstMouse := false }
        (({ initialCameraState with firstMouse := false } : CameraState).lastX
          + 100)
        ({ initialCameraState with firstMouse := false } : CameraState).lastY).yaw
        = -80 ∧
      (Mouse_Position_Callback { initialCameraState with firstMouse := false }
        (({ initialCameraState with firstMouse := false } : CameraState).lastX
          + 100)
        ({ initialCameraState with firstMouse := false } :
          CameraState).lastY).cameraFront =
        cameraDirection (-80)
          ((Mouse_Position_Callback { initialCameraState with firstMouse := false }
            (({ initialCameraState with firstMouse := false } :
              CameraState).lastX + 100)
            ({ initialCameraState with firstMouse := false } :
              CameraState).lastY).pitch)) :=
  ⟨rfl, rfl, C4_mouse_move.2 { initialCameraState with firstMouse := false }
    rfl rfl⟩

/-! ### Field-preservation lemmas for the keyboard handler -/

theorem applyEscape_fov (st : CameraState) (keys : KeyState) :
    (applyEscape st keys).fov = st.fov := by
  unfold applyEscape; split_ifs <;> rfl

theorem applyMovement_fov (st : CameraState) (keys : KeyState) :
    (applyMovement st keys).fov = st.fov := rfl

theorem pKeyStep_fov (st : CameraState) (keys : KeyState) :
    (pKeyStep st keys).1.fov = st.fov := by
  unfold pKeyStep; split_ifs <;> rfl

theorem oKeyStep_fov (st : CameraState) (keys : KeyState) :
    (oKeyStep st keys).1.fov = st.fov := by
  unfold oKeyStep; split_ifs <;> rfl

theorem ProcessKeyboardEvents_fst (st : CameraState) (keys : KeyState) :
    (ProcessKeyboardEvents st keys).1 =
      (oKeyStep (pKeyStep (applyMovement (applyEscape st keys) keys) keys).1
        keys).1 := rfl

theorem ProcessKeyboardEvents_fov (st : CameraState) (keys : KeyState) :
    (ProcessKeyboardEvents st keys).1.fov = st.fov := by
  rw [ProcessKeyboardEvents_fst, oKeyStep_fov, pKeyStep_fov, applyMovement_fov,
    applyEscape_fov]

theorem applyEscape_cameraPos (st : CameraState) (keys : KeyState) :
    (applyEscape st keys).cameraPos = st.cameraPos := by
  unfold applyEscape; split_ifs <;> rfl

theorem applyEscape_cameraFront (st : CameraState) (keys : KeyState) :
    (applyEscape st keys).cameraFront = st.cameraFront := by
  unfold applyEscape; split_ifs <;> rfl

theorem applyEscape_cameraUp (st : CameraState) (keys : KeyState) :
    (applyEscape st keys).cameraUp = st.cameraUp := by
  unfold applyEscape; split_ifs <;> rfl

theorem applyEscape_movementSpeed (st : CameraState) (keys : KeyState) :
    (applyEscape st keys).movementSpeed = st.movementSpeed := by
  unfold applyEscape; split_ifs <;> rfl

theorem applyEscape_deltaTime (st : CameraState) (keys : KeyState) :
    (applyEscape st keys).deltaTime = st.deltaTime := by
  unfold applyEscape; split_ifs <;> rfl

theorem applyEscape_pKeyPressed (st : CameraState) (keys : KeyState) :
    (applyEscape st keys).pKeyPressed = st.pKeyPressed := by
  unfold applyEscape; split_ifs <;> rfl

theorem applyEscape_oKeyPressed (st : CameraState) (keys : KeyState) :
    (applyEscape st keys).oKeyPressed = st.oKeyPressed := by
  unfold applyEscape; split_ifs <;> rfl

theorem applyMovement_pKeyPressed (st : CameraState) (keys : KeyState) :
    (applyMovement st keys).pKeyPressed = st.pKeyPressed := rfl

theorem applyMovement_oKeyPressed (st : CameraState) (keys : KeyState) :
    (applyMovement st keys).oKeyPressed = st.oKeyPressed := rfl

theorem pKeyStep_cameraPos (st : CameraState) (keys : KeyState) :
    (pKeyStep st keys).1.cameraPos = st.cameraPos := by
  unfold pKeyStep; split_ifs <;> rfl

theorem oKeyStep_cameraPos (st : CameraState) (keys : KeyState) :
    (oKeyStep st keys).1.cameraPos = st.cameraPos := by
  unfold oKeyStep; split_ifs <;> rfl

theorem pKeyStep_oKeyPressed (st : CameraState) (keys : KeyState) :
    (pKeyStep st keys).1.oKeyPressed = st.oKeyPressed := by
  unfold pKeyStep; split_ifs <;> rfl

theorem oKeyStep_pKeyPressed (st : CameraState) (keys : KeyState) :
    (oKeyStep st keys).1.pKeyPressed = st.pKeyPressed := by
  unfold oKeyStep; split_ifs <;> rfl

theorem b2r_true : b2r true = 1 := rfl

theorem b2r_false : b2r false = 0 := rfl

theorem ite_vadd (b : Bool) (p v : Vec3) :
    (if b = true then p + v else p) = p + b2r b • v := by
  cases b <;> ext <;> simp [b2r]

theorem ite_vsub (b : Bool) (p v : Vec3) :
    (if b = true then p - v else p) = p - b2r b • v := by
  cases b <;> ext <;> simp [b2r]

theorem applyMovement_cameraPos (st : CameraState) (keys : KeyState) :
    (applyMovement st keys).cameraPos =
      st.cameraPos
        + ((st.movementSpeed * st.deltaTime) * (b2r keys.w - b2r keys.s))
            • st.cameraFront
        + ((st.movementSpeed * st.deltaTime) * (b2r keys.d - b2r keys.a))
            • Vec3.normalize (Vec3.cross st.cameraFront st.cameraUp)
        + ((st.movementSpeed * st.deltaTime) * (b2r keys.q - b2r keys.e))
            • st.cameraUp := by
  simp only [applyMovement, ite_vadd, ite_vsub]
  ext <;> simp <;> ring

theorem tick_cameraPos (st : CameraState) (elapsedSeconds : ℝ)
    (keys : KeyState) :
    (tick st elapsedSeconds keys).1.cameraPos =
      st.cameraPos
        + ((st.movementSpeed * elapsedSeconds) * (b2r keys.w - b2r keys.s))
            • st.cameraFront
        + ((st.movementSpeed * elapsedSeconds) * (b2r keys.d - b2r keys.a))
            • Vec3.normalize (Vec3.cross st.cameraFront st.cameraUp)
        + ((st.movementSpeed * elapsedSeconds) * (b2r keys.q - b2r keys.e))
            • st.cameraUp := by
  show (ProcessKeyboardEvents { st with deltaTime := elapsedSeconds } keys).1.cameraPos = _
  rw [ProcessKeyboardEvents_fst, oKeyStep_cameraPos, pKeyStep_cameraPos,
    applyMovement_cameraPos]
  rw [applyEscape_cameraPos, applyEscape_cameraFront, applyEscape_cameraUp,
    applyEscape_movementSpeed, applyEscape_deltaTime]

/-! ### C3 -/

/-- C3 (counterexample): with orthographic projection selected, the top
clipping bound (the frustum's half-height) that `PrepareSceneView`
passes to `glm::ortho` is 15/2 = 7.5 world units, not 15 scaled by the
window aspect ratio (which would be 18.75). -/
theorem C3_counterexample :
    (prepareSceneViewProjection
        { initialCameraState with orthographicProjection := true }).orthoTop =
      some (15 / 2) ∧
    (15 / 2 : ℝ) ≠ 15 * (WINDOW_WIDTH / WINDOW_HEIGHT) := by
  constructor
  · simp [prepareSceneViewProjection, ProjectionCall.orthoTop]
  · norm_num [WINDOW_WIDTH, WINDOW_HEIGHT]

/-- C3 (amended): when `orthographicProjection` is true,
`PrepareSceneView` builds a symmetric orthographic frustum whose
half-WIDTH is (15/2) scaled by the window aspect ratio and whose
half-height is 15/2 = 7.5 world units (the fixed size 15 is the full
height, and only the horizontal extent is aspect-scaled), with near
plane 0.1 and far plane 100.0; when it is false, it builds a
perspective frustum with the camera's field-of-view value (45 degrees
initially, and never modified by any handler), the window aspect
ratio, near 0.1, far 100.0. -/
theorem C3_projection_selection :
    (∀ s : CameraState, s.orthographicProjection = true →
      prepareSceneViewProjection s =
        ProjectionCall.ortho (-(15 * (WINDOW_WIDTH / WINDOW_HEIGHT) / 2))
          (15 * (WINDOW_WIDTH / WINDOW_HEIGHT) / 2) (-(15 / 2)) (15 / 2)
          0.1 100) ∧
    (∀ s : CameraState, s.orthographicProjection = false →
      prepareSceneViewProjection s =
        ProjectionCall.perspective s.fov (WINDOW_WIDTH / WINDOW_HEIGHT)
          0.1 100) ∧
    initialCameraState.fov = 45 ∧
    (∀ (s : CameraState) (x y : ℝ),
      (Mouse_Position_Callback s x y).fov = s.fov) ∧
    (∀ (s : CameraState) (xo yo : ℝ),
      (Mouse_Scroll_Callback s xo yo).fov = s.fov) ∧
    ∀ (s : CameraState) (keys : KeyState),
      (ProcessKeyboardEvents s keys).1.fov = s.fov := by
  refine ⟨?_, ?_, rfl, ?_, ?_, ?_⟩
  · intro s h
    have hred : prepareSceneViewProjection s =
        ProjectionCall.ortho (-15 * (WINDOW_WIDTH / WINDOW_HEIGHT) / 2)
          (15 * (WINDOW_WIDTH / WINDOW_HEIGHT) / 2) (-15 / 2) (15 / 2)
          0.1 100 := by
      simp [prepareSceneViewProjection, h]
    rw [hred]
    congr 1 <;> ring
  · intro s h
    simp [prepareSceneViewProjection, h]
  · intro s x y
    by_cases h : s.firstMouse <;> simp [Mouse_Position_Callback, h]
  · intro s xo yo
    rfl
  · intro s keys
    exact ProcessKeyboardEvents_fov s keys

/-- Witness for `C3_projection_selection` at concrete states in each
projection mode. -/
theorem C3_projection_selection_witness :
    ({ initialCameraState with orthographicProjection := true } :
      CameraState).orthographicProjection = true ∧
    prepareSceneViewProjection
        { initialCameraState with orthographicProjection := true } =
      ProjectionCall.ortho (-(15 * (WINDOW_WIDTH / WINDOW_HEIGHT) / 2))
        (15 * (WINDOW_WIDTH / WINDOW_HEIGHT) / 2) (-(15 / 2)) (15 / 2)
        0.1 100 ∧
    initialCameraState.orthographicProjection = false ∧
    prepareSceneViewProjection initialCameraState =
      ProjectionCall.perspective initialCameraState.fov
        (WINDOW_WIDTH / WINDOW_HEIGHT) 0.1 100 :=
  ⟨rfl,
   C3_projection_selection.1
     { initialCameraState with orthographicProjection := true } rfl,
   rfl,
   C3_projection_selection.2.1 initialCameraState rfl⟩

/-! ### C6 -/

/-- C6 (counterexample): a tick with elapsedSeconds = 0.5, only W
pressed and movementSpeed = 2.5 does NOT, in general, move the
position by 1.25 times the NORMALIZED front vector: the code adds
`cameraSpeed * cameraFront` with the raw stored front, and in the
initial state the stored front is the unnormalized seed (0, -0.2, -1),
whose length exceeds 1. -/
theorem C6_counterexample :
    (tick initialCameraState 0.5
        ⟨false, true, false, false, false, false, false, false, false⟩).1.cameraPos ≠
      initialCameraState.cameraPos +
        (1.25 : ℝ) • Vec3.normalize initialCameraState.cameraFront := by
  have hL : initialCameraState.cameraFront.length = Real.sqrt 1.04 := by
    simp only [initialCameraState, Vec3.length]
    norm_num
  have hnz : (Vec3.normalize initialCameraState.cameraFront).z =
      -(1 / Real.sqrt 1.04) := by
    simp only [Vec3.normalize, Vec3.smul_z, hL]
    norm_num [initialCameraState]
  have hLHS : (tick initialCameraState 0.5
      ⟨false, true, false, false, false, false, false, false, false⟩).1.cameraPos.z
      = 10.75 := by
    rw [tick_cameraPos]
    simp [b2r, initialCameraState]
    norm_num
  have hgt : (1 : ℝ) < Real.sqrt 1.04 := by
    have h1 : Real.sqrt 1 < Real.sqrt 1.04 :=
      Real.sqrt_lt_sqrt (by norm_num) (by norm_num)
    rwa [Real.sqrt_one] at h1
  intro heq
  have hz := congrArg Vec3.z heq
  rw [hLHS] at hz
  simp only [Vec3.add_z, Vec3.smul_z, hnz] at hz
  have hpz : initialCameraState.cameraPos.z = 12 := rfl
  rw [hpz] at hz
  have hlt : 1 / Real.sqrt 1.04 < 1 := by
    rw [div_lt_one (lt_trans one_pos hgt)]
    exact hgt
  nlinarith [hz, hlt]

/-- C6 (amended): in each per-frame tick, each pressed movement key
displaces position by movementSpeed * elapsedSeconds along its
direction — W by +front and S by -front, D by
+normalize(cross(front, up)) and A by its negation, Q by +up and E by
-up, where front is the raw stored front vector; with elapsedSeconds =
0 the position is unchanged regardless of keys; a tick with
elapsedSeconds = 0.5, only W pressed, and movementSpeed = 2.5 moves
position by exactly 1.25 times the stored front vector, which equals
1.25 times the normalized front vector exactly when the stored front
has unit length (as it does after any mouse event, though not in the
initial seed state). -/
theorem C6_keyboard_movement :
    (∀ (st : CameraState) (elapsedSeconds : ℝ) (keys : KeyState),
      (tick st elapsedSeconds keys).1.cameraPos =
        st.cameraPos
          + ((st.movementSpeed * elapsedSeconds) * (b2r keys.w - b2r keys.s))
              • st.cameraFront
          + ((st.movementSpeed * elapsedSeconds) * (b2r keys.d - b2r keys.a))
              • Vec3.normalize (Vec3.cross st.cameraFront st.cameraUp)
          + ((st.movementSpeed * elapsedSeconds) * (b2r keys.q - b2r keys.e))
              • st.cameraUp) ∧
    (∀ (st : CameraState) (keys : KeyState),
      (tick st 0 keys).1.cameraPos = st.cameraPos) ∧
    (∀ st : CameraState, st.movementSpeed = 2.5 →
      (tick st 0.5
          ⟨false, true, false, false, false, false, false, false, false⟩).1.cameraPos
        = st.cameraPos + (1.25 : ℝ) • st.cameraFront) ∧
    ∀ st : CameraState, st.movementSpeed = 2.5 →
      st.cameraFront.length = 1 →
      (tick st 0.5
          ⟨false, true, false, false, false, false, false, false, false⟩).1.cameraPos
        = st.cameraPos + (1.25 : ℝ) • Vec3.normalize st.cameraFront := by
  have hscen : ∀ st : CameraState, st.movementSpeed = 2.5 →
      (tick st 0.5
          ⟨false, true, false, false, false, false, false, false, false⟩).1.cameraPos
        = st.cameraPos + (1.25 : ℝ) • st.cameraFront := by
    intro st hsp
    rw [tick_cameraPos, hsp]
    ext <;>
      simp only [Vec3.add_x, Vec3.add_y, Vec3.add_z, Vec3.smul_x, Vec3.smul_y,
        Vec3.smul_z, b2r_true, b2r_false] <;>
      ring
  refine ⟨fun st e keys => tick_cameraPos st e keys, ?_, hscen, ?_⟩
  · intro st keys
    rw [tick_cameraPos]
    ext <;> simp
  · intro st hsp hlen
    rw [Vec3.normalize_of_length_one hlen]
    exact hscen st hsp

/-- Witness for `C6_keyboard_movement` at concrete states: the initial
state (raw-front scenario) and the initial state with a unit front
vector (normalized-front scenario). -/
theorem C6_keyboard_movement_witness :
    initialCameraState.movementSpeed = 2.5 ∧
    (tick initialCameraState 0.5
        ⟨false, true, false, false, false, false, false, false, false⟩).1.cameraPos
      = initialCameraState.cameraPos +
          (1.25 : ℝ) • initialCameraState.cameraFront ∧
    ({ initialCameraState with cameraFront := ⟨0, 0, -1⟩ } :
        CameraState).cameraFront.length = 1 ∧
    (tick { initialCameraState with cameraFront := ⟨0, 0, -1⟩ } 0.5
        ⟨false, true, false, false, false, false, false, false, false⟩).1.cameraPos
      = ({ initialCameraState with cameraFront := ⟨0, 0, -1⟩ } :
          CameraState).cameraPos +
        (1.25 : ℝ) • Vec3.normalize
          ({ initialCameraState with cameraFront := ⟨0, 0, -1⟩ } :
            CameraState).cameraFront := by
  have hlen : ({ initialCameraState with cameraFront := ⟨0, 0, -1⟩ } :
      CameraState).cameraFront.length = 1 := by
    simp only [Vec3.length]
    norm_num
  exact ⟨rfl, C6_keyboard_movement.2.2.1 initialCameraState rfl, hlen,
    C6_keyboard_movement.2.2.2 _ rfl hlen⟩

/-! ### C7 -/

theorem pKeyStep_pKeyPressed (st : CameraState) (keys : KeyState) :
    (pKeyStep st keys).1.pKeyPressed = keys.p := by
  unfold pKeyStep; split_ifs <;> simp_all

theorem oKeyStep_oKeyPressed (st : CameraState) (keys : KeyState) :
    (oKeyStep st keys).1.oKeyPressed = keys.o := by
  unfold oKeyStep; split_ifs <;> simp_all

theorem pKeyStep_logs (st : CameraState) (keys : KeyState) :
    (pKeyStep st keys).2 =
      if keys.p = true ∧ st.pKeyPressed = false then
        [LogMsg.switchedToPerspective] else [] := by
  unfold pKeyStep; split_ifs <;> simp_all

theorem oKeyStep_logs (st : CameraState) (keys : KeyState) :
    (oKeyStep st keys).2 =
      if keys.o = true ∧ st.oKeyPressed = false then
        [LogMsg.switchedToOrthographic] else [] := by
  unfold oKeyStep; split_ifs <;> simp_all

theorem ProcessKeyboardEvents_snd (st : CameraState) (keys : KeyState) :
    (ProcessKeyboardEvents st keys).2 =
      (pKeyStep (applyMovement (applyEscape st keys) keys) keys).2 ++
        (oKeyStep (pKeyStep (applyMovement (applyEscape st keys) keys) keys).1
          keys).2 := rfl

theorem ProcessKeyboardEvents_pKeyPressed (st : CameraState) (keys : KeyState) :
    (ProcessKeyboardEvents st keys).1.pKeyPressed = keys.p := by
  rw [ProcessKeyboardEvents_fst, oKeyStep_pKeyPressed, pKeyStep_pKeyPressed]

theorem ProcessKeyboardEvents_oKeyPressed (st : CameraState) (keys : KeyState) :
    (ProcessKeyboardEvents st keys).1.oKeyPressed = keys.o := by
  rw [ProcessKeyboardEvents_fst, oKeyStep_oKeyPressed]

theorem ProcessKeyboardEvents_persp_count (st : CameraState) (keys : KeyState) :
    (ProcessKeyboardEvents st keys).2.count LogMsg.switchedToPerspective =
      if keys.p = true ∧ st.pKeyPressed = false then 1 else 0 := by
  rw [ProcessKeyboardEvents_snd, List.count_append, pKeyStep_logs, oKeyStep_logs]
  rw [applyMovement_pKeyPressed, applyEscape_pKeyPressed]
  split_ifs <;> simp_all [List.count_cons, List.count_nil]

theorem ProcessKeyboardEvents_ortho_count (st : CameraState) (keys : KeyState) :
    (ProcessKeyboardEvents st keys).2.count LogMsg.switchedToOrthographic =
      if keys.o = true ∧ st.oKeyPressed = false then 1 else 0 := by
  rw [ProcessKeyboardEvents_snd, List.count_append, pKeyStep_logs, oKeyStep_logs]
  rw [pKeyStep_oKeyPressed, applyMovement_oKeyPressed, applyEscape_oKeyPressed]
  split_ifs <;> simp_all [List.count_cons, List.count_nil]

theorem tick_persp_count (st : CameraState) (dt : ℝ) (keys : KeyState) :
    (tick st dt keys).2.count LogMsg.switchedToPerspective =
      if keys.p = true ∧ st.pKeyPressed = false then 1 else 0 :=
  ProcessKeyboardEvents_persp_count { st with deltaTime := dt } keys

theorem tick_ortho_count (st : CameraState) (dt : ℝ) (keys : KeyState) :
    (tick st dt keys).2.count LogMsg.switchedToOrthographic =
      if keys.o = true ∧ st.oKeyPressed = false then 1 else 0 :=
  ProcessKeyboardEvents_ortho_count { st with deltaTime := dt } keys

theorem tick_pKeyPressed (st : CameraState) (dt : ℝ) (keys : KeyState) :
    (tick st dt keys).1.pKeyPressed = keys.p :=
  ProcessKeyboardEvents_pKeyPressed { st with deltaTime := dt } keys

theorem tick_oKeyPressed (st : CameraState) (dt : ℝ) (keys : KeyState) :
    (tick st dt keys).1.oKeyPressed = keys.o :=
  ProcessKeyboardEvents_oKeyPressed { st with deltaTime := dt } keys

theorem runTicks_cons (st : CameraState) (t : ℝ × KeyState)
    (rest : List (ℝ × KeyState)) :
    runTicks st (t :: rest) =
      ((runTicks (tick st t.1 t.2).1 rest).1,
        (tick st t.1 t.2).2 ++ (runTicks (tick st t.1 t.2).1 rest).2) := rfl

theorem runTicks_persp_count_zero (ticks : List (ℝ × KeyState))
    (st : CameraState) (hall : ∀ t ∈ ticks, (t.2 : KeyState).p = true)
    (hflag : st.pKeyPressed = true) :
    (runTicks st ticks).2.count LogMsg.switchedToPerspective = 0 := by
  induction ticks generalizing st with
  | nil => rfl
  | cons t rest ih =>
    rw [runTicks_cons]
    simp only [List.count_append]
    have h1 : (tick st t.1 t.2).2.count LogMsg.switchedToPerspective = 0 := by
      rw [tick_persp_count]
      simp [hflag]
    have h2 : (runTicks (tick st t.1 t.2).1 rest).2.count
        LogMsg.switchedToPerspective = 0 := by
      refine ih _ (fun t' ht' => hall t' (List.mem_cons_of_mem t ht')) ?_
      rw [tick_pKeyPressed]
      exact hall t (List.mem_cons_self t rest)
    omega

theorem runTicks_ortho_count_zero (ticks : List (ℝ × KeyState))
    (st : CameraState) (hall : ∀ t ∈ ticks, (t.2 : KeyState).o = true)
    (hflag : st.oKeyPressed = true) :
    (runTicks st ticks).2.count LogMsg.switchedToOrthographic = 0 := by
  induction ticks generalizing st with
  | nil => rfl
  | cons t rest ih =>
    rw [runTicks_cons]
    simp only [List.count_append]
    have h1 : (tick st t.1 t.2).2.count LogMsg.switchedToOrthographic = 0 := by
      rw [tick_ortho_count]
      simp [hflag]
    have h2 : (runTicks (tick st t.1 t.2).1 rest).2.count
        LogMsg.switchedToOrthographic = 0 := by
      refine ih _ (fun t' ht' => hall t' (List.mem_cons_of_mem t ht')) ?_
      rw [tick_oKeyPressed]
      exact hall t (List.mem_cons_self t rest)
    omega

/-- C7: the projection-mode keys are edge-triggered: over any run of
consecutive ticks with the P key continuously held, the
switch-to-Perspective side effect (the mode-changed log line) occurs at
most once; symmetrically for the O key and Orthographic mode; and per
tick, each emission happens exactly on the released-to-pressed
transition of its own key, each key consulting only its own
previous-state flag (`pKeyPressed` respectively `oKeyPressed`). -/
theorem C7_edge_triggered :
    (∀ (st : CameraState) (ticks : List (ℝ × KeyState)),
      (∀ t ∈ ticks, (t.2 : KeyState).p = true) →
        (runTicks st ticks).2.count LogMsg.switchedToPerspective ≤ 1) ∧
    (∀ (st : CameraState) (ticks : List (ℝ × KeyState)),
      (∀ t ∈ ticks, (t.2 : KeyState).o = true) →
        (runTicks st ticks).2.count LogMsg.switchedToOrthographic ≤ 1) ∧
    (∀ (st : CameraState) (dt : ℝ) (keys : KeyState),
      (tick st dt keys).2.count LogMsg.switchedToPerspective =
        if keys.p = true ∧ st.pKeyPressed = false then 1 else 0) ∧
    ∀ (st : CameraState) (dt : ℝ) (keys : KeyState),
      (tick st dt keys).2.count LogMsg.switchedToOrthographic =
        if keys.o = true ∧ st.oKeyPressed = false then 1 else 0 := by
  refine ⟨?_, ?_, tick_persp_count, tick_ortho_count⟩
  · intro st ticks hall
    cases ticks with
    | nil => simp [runTicks]
    | cons t rest =>
      rw [runTicks_cons]
      simp only [List.count_append]
      have h1 : (tick st t.1 t.2).2.count LogMsg.switchedToPerspective ≤ 1 := by
        rw [tick_persp_count]
        split_ifs <;> norm_num
      have h2 : (runTicks (tick st t.1 t.2).1 rest).2.count
          LogMsg.switchedToPerspective = 0 := by
        refine runTicks_persp_count_zero rest _
          (fun t' ht' => hall t' (List.mem_cons_of_mem t ht')) ?_
        rw [tick_pKeyPressed]
        exact hall t (List.mem_cons_self t rest)
      omega
  · intro st ticks hall
    cases ticks with
    | nil => simp [runTicks]
    | cons t rest =>
      rw [runTicks_cons]
      simp only [List.count_append]
      have h1 : (tick st t.1 t.2).2.count LogMsg.switchedToOrthographic ≤ 1 := by
        rw [tick_ortho_count]
        split_ifs <;> norm_num
      have h2 : (runTicks (tick st t.1 t.2).1 rest).2.count
          LogMsg.switchedToOrthographic = 0 := by
        refine runTicks_ortho_count_zero rest _
          (fun t' ht' => hall t' (List.mem_cons_of_mem t ht')) ?_
        rw [tick_oKeyPressed]
        exact hall t (List.mem_cons_self t rest)
      omega

/-- Witness for `C7_edge_triggered`: two consecutive ticks holding only
the P key, starting from the initial state. -/
theorem C7_edge_triggered_witness :
    (∀ t ∈ ([((1 : ℝ), ⟨false, false, false, false, false, false, false,
          true, false⟩),
        ((1 : ℝ), ⟨false, false, false, false, false, false, false,
          true, false⟩)] : List (ℝ × KeyState)), (t.2 : KeyState).p = true) ∧
    (runTicks initialCameraState
        [((1 : ℝ), ⟨false, false, false, false, false, false, false,
          true, false⟩),
         ((1 : ℝ), ⟨false, false, false, false, false, false, false,
          true, false⟩)]).2.count LogMsg.switchedToPerspective ≤ 1 := by
  have hall : ∀ t ∈ ([((1 : ℝ), ⟨false, false, false, false, false, false,
        false, true, false⟩),
      ((1 : ℝ), ⟨false, false, false, false, false, false, false,
        true, false⟩)] : List (ℝ × KeyState)), (t.2 : KeyState).p = true := by
    intro t ht
    simp only [List.mem_cons, List.not_mem_nil, or_false] at ht
    rcases ht with rfl | rfl <;> rfl
  exact ⟨hall, C7_edge_triggered.1 initialCameraState _ hall⟩

/-! ### C8 -/

/-- C8: whenever `CreateGLTexture` fails — the image cannot be decoded,
or the decoded image has a channel count other than 3 or 4 — it returns
false and leaves the texture slot table unchanged: the returned state is
exactly the input state, so no entry is added to `m_textureIDs` and
`m_loadedTextures` keeps its prior value. -/
theorem C8_texture_load_failure_atomic :
    (∀ (s : SceneState) (textureID : Int) (tag : String),
      CreateGLTexture s none textureID tag = some (false, s)) ∧
    ∀ (s : SceneState) (img : ImageData) (textureID : Int) (tag : String),
      img.colorChannels ≠ 3 → img.colorChannels ≠ 4 →
      CreateGLTexture s (some img) textureID tag = some (false, s) := by
  constructor
  · intro s textureID tag
    rfl
  · intro s img textureID tag h3 h4
    simp [CreateGLTexture, h3, h4]

/-- Witness for `C8_texture_load_failure_atomic`: a failed decode and a
2-channel decode, both from the freshly constructed scene state. -/
theorem C8_texture_load_failure_atomic_witness :
    CreateGLTexture initialSceneState none 7 "wood" =
      some (false, initialSceneState) ∧
    (ImageData.mk 256 256 2).colorChannels ≠ 3 ∧
    (ImageData.mk 256 256 2).colorChannels ≠ 4 ∧
    CreateGLTexture initialSceneState (some ⟨256, 256, 2⟩) 7 "wood" =
      some (false, initialSceneState) :=
  ⟨C8_texture_load_failure_atomic.1 initialSceneState 7 "wood",
   by decide, by decide,
   C8_texture_load_failure_atomic.2 initialSceneState ⟨256, 256, 2⟩ 7 "wood"
     (by decide) (by decide)⟩

/-! ### C9 -/

theorem findTextureIDLoop_not_found (entries : List TEXTURE_INFO)
    (tag : String) (h : ∀ e ∈ entries, e.tag ≠ tag) :
    findTextureIDLoop entries tag = -1 := by
  induction entries with
  | nil => rfl
  | cons e rest ih =>
    rw [findTextureIDLoop]
    rw [if_neg (h e (List.mem_cons_self e rest))]
    exact ih fun e' he' => h e' (List.mem_cons_of_mem e he')

theorem findTextureSlotLoop_not_found (entries : List TEXTURE_INFO)
    (tag : String) (index : Int) (h : ∀ e ∈ entries, e.tag ≠ tag) :
    findTextureSlotLoop entries tag index = -1 := by
  induction entries generalizing index with
  | nil => rfl
  | cons e rest ih =>
    rw [findTextureSlotLoop]
    rw [if_neg (h e (List.mem_cons_self e rest))]
    exact ih _ fun e' he' => h e' (List.mem_cons_of_mem e he')

theorem findMaterialLoop_not_found (mats : List OBJECT_MATERIAL)
    (tag : String) (h : ∀ m ∈ mats, m.tag ≠ tag) :
    findMaterialLoop mats tag = none := by
  induction mats with
  | nil => rfl
  | cons m rest ih =>
    rw [findMaterialLoop]
    rw [if_neg (h m (List.mem_cons_self m rest))]
    exact ih fun m' hm' => h m' (List.mem_cons_of_mem m hm')

/-- C9: for every tag with no matching entry among the loaded texture
slots, `FindTextureID` and `FindTextureSlot` return the sentinel -1,
and `SetShaderTexture` passes that -1 unchecked into the sampler
uniform; likewise a missing material tag makes `FindMaterial` resolve
to the not-found result rather than an error. -/
theorem C9_missing_tag_sentinel :
    (∀ (s : SceneState) (tag : String),
      (∀ e ∈ s.m_textureIDs.take s.m_loadedTextures, e.tag ≠ tag) →
        FindTextureID s tag = -1 ∧
        FindTextureSlot s tag = -1 ∧
        SetShaderTexture s tag =
          [ShaderCall.setIntValue "bUseTexture" 1,
           ShaderCall.setSampler2DValue "objectTexture" (-1)]) ∧
    ∀ (s : SceneState) (tag : String),
      (∀ m ∈ s.m_objectMaterials, m.tag ≠ tag) →
        FindMaterial s tag = none := by
  constructor
  · intro s tag h
    have hid : FindTextureID s tag = -1 :=
      findTextureIDLoop_not_found _ tag h
    have hslot : FindTextureSlot s tag = -1 :=
      findTextureSlotLoop_not_found _ tag 0 h
    refine ⟨hid, hslot, ?_⟩
    rw [SetShaderTexture, hslot]
  · intro s tag h
    exact findMaterialLoop_not_found _ tag h

/-- Witness for `C9_missing_tag_sentinel`: the freshly constructed
scene state (no textures loaded, no materials defined) with the absent
tag "glass". -/
theorem C9_missing_tag_sentinel_witness :
    (∀ e ∈ initialSceneState.m_textureIDs.take
        initialSceneState.m_loadedTextures, e.tag ≠ "glass") ∧
    (FindTextureID initialSceneState "glass" = -1 ∧
      FindTextureSlot initialSceneState "glass" = -1 ∧
      SetShaderTexture initialSceneState "glass" =
        [ShaderCall.setIntValue "bUseTexture" 1,
         ShaderCall.setSampler2DValue "objectTexture" (-1)]) ∧
    (∀ m ∈ initialSceneState.m_objectMaterials, m.tag ≠ "glass") ∧
    FindMaterial initialSceneState "glass" = none := by
  have h1 : ∀ e ∈ initialSceneState.m_textureIDs.take
      initialSceneState.m_loadedTextures, e.tag ≠ "glass" := by
    intro e he
    simp [initialSceneState] at he
  have h2 : ∀ m ∈ initialSceneState.m_objectMaterials, m.tag ≠ "glass" := by
    intro m hm
    simp [initialSceneState] at hm
  exact ⟨h1, C9_missing_tag_sentinel.1 initialSceneState "glass" h1, h2,
    C9_missing_tag_sentinel.2 initialSceneState "glass" h2⟩

/-! ### C10 -/

/-- C10: `CreateGLTexture` performs no capacity check before
registering a texture: on every successful decode it writes the new
entry at index `m_loadedTextures` of the fixed 16-slot texture array
and increments the count, so the write is in bounds exactly when fewer
than 16 textures are registered, and once the count has reached the
array length the write of the next successful load is out of bounds
(the `none` outcome); concretely, 16 successful loads from the fresh
state succeed and the 17th indexes past the array's end. -/
theorem C10_registration_unchecked :
    (∀ (s : SceneState) (img : ImageData) (textureID : Int) (tag : String),
      (img.colorChannels = 3 ∨ img.colorChannels = 4) →
      s.m_loadedTextures < s.m_textureIDs.length →
        CreateGLTexture s (some img) textureID tag =
          some (true,
            { s with
                m_textureIDs :=
                  s.m_textureIDs.set s.m_loadedTextures ⟨textureID, tag⟩,
                m_loadedTextures := s.m_loadedTextures + 1 })) ∧
    (∀ (s : SceneState) (img : ImageData) (textureID : Int) (tag : String),
      (img.colorChannels = 3 ∨ img.colorChannels = 4) →
      s.m_textureIDs.length ≤ s.m_loadedTextures →
        CreateGLTexture s (some img) textureID tag = none) ∧
    initialSceneState.m_textureIDs.length = MAX_TEXTURE_SLOTS ∧
    (loadSameTexture 16 initialSceneState).isSome = true ∧
    loadSameTexture 17 initialSceneState = none := by
  refine ⟨?_, ?_, rfl, ?_, ?_⟩
  · intro s img textureID tag hch hlt
    simp [CreateGLTexture, hch, setChecked, hlt]
  · intro s img textureID tag hch hge
    simp [CreateGLTexture, hch, setChecked, Nat.not_lt.mpr hge]
  · decide
  · decide

/-- Witness for `C10_registration_unchecked`: a 3-channel load into the
fresh state (in-bounds write at index 0) and into a state whose count
has already reached the array length (out-of-bounds write). -/
theorem C10_registration_unchecked_witness :
    ((ImageData.mk 64 64 3).colorChannels = 3 ∨
      (ImageData.mk 64 64 3).colorChannels = 4) ∧
    initialSceneState.m_loadedTextures <
      initialSceneState.m_textureIDs.length ∧
    CreateGLTexture initialSceneState (some ⟨64, 64, 3⟩) 9 "floor" =
      some (true,
        { initialSceneState with
            m_textureIDs :=
              initialSceneState.m_textureIDs.set
                initialSceneState.m_loadedTextures ⟨9, "floor"⟩,
            m_loadedTextures := initialSceneState.m_loadedTextures + 1 }) ∧
    ({ initialSceneState with m_loadedTextures := 16 } :
        SceneState).m_textureIDs.length ≤
      ({ initialSceneState with m_loadedTextures := 16 } :
        SceneState).m_loadedTextures ∧
    CreateGLTexture { initialSceneState with m_loadedTextures := 16 }
      (some ⟨64, 64, 3⟩) 9 "floor" = none :=
  ⟨by decide, by decide,
   C10_registration_unchecked.1 initialSceneState ⟨64, 64, 3⟩ 9 "floor"
     (by decide) (by decide),
   by decide,
   C10_registration_unchecked.2.1 { initialSceneState with m_loadedTextures := 16 }
     ⟨64, 64, 3⟩ 9 "floor" (by decide) (by decide)⟩

end CS330
